import Mathlib

/-!
Verification of the `vibe` window-effects module (lib.rs, dwm_win32.rs, dwm.rs).

The embedding models:
* the OS version triple and the two version probers
  (`dwm_win32.rs`'s lazily-unwrapped `WVER`, `dwm.rs`'s fallible `get_windows_ver`);
* the capability predicates (`is_win7`, `is_win10_1809`, `is_win11`,
  `is_win11_22h2` from dwm_win32.rs; `is_win10_swca`, `is_win11`,
  `is_win11_dwmsbt` from dwm.rs);
* the dwm-level effect routines as producers of a trace of native calls
  (`DwmSetWindowAttribute`, `DwmExtendFrameIntoClientArea`,
  `SetWindowCompositionAttribute`) or a `VibeError`;
* the lib.rs dispatcher (`apply_effect`, `clear_effects`, `force_theme`) over the
  process-wide `VibeState`, returning (result, new state, trace of native calls).

Host-runtime glue (argument marshalling, window-handle extraction) is out of
scope, as the spec directs; the window handle is therefore not modelled.
-/

namespace Vibe

/-- OS version triple (dwMajorVersion, dwMinorVersion, dwBuildNumber) read from
an `OSVERSIONINFOW` filled in by `RtlGetVersion`. -/
structure WinVer where
  major : Nat
  minor : Nat
  build : Nat
deriving DecidableEq

/-- Outcome of the dynamic `RtlGetVersion` probe: whether the `ntdll.dll` entry
point resolved, the NTSTATUS the call returned, and the version data the call
wrote into the struct. -/
structure VerQuery where
  resolveOk : Bool
  status : Int
  written : WinVer
deriving DecidableEq

/-- dwm_win32.rs `is_win7` (line 100): `WVER.0 > 6 || (WVER.0 == 6 && WVER.1 == 1)`,
as a function of the cached version triple. -/
def is_win7 (v : WinVer) : Bool :=
  decide (6 < v.major) || (decide (v.major = 6) && decide (v.minor = 1))

/-- dwm_win32.rs `is_win10_1809` (line 105): `WVER.2 >= 17763 && WVER.2 < 22000`. -/
def is_win10_1809 (v : WinVer) : Bool :=
  decide (17763 ≤ v.build) && decide (v.build < 22000)

/-- dwm_win32.rs `is_win11` (line 110): `WVER.2 >= 22000`. -/
def is_win11 (v : WinVer) : Bool :=
  decide (22000 ≤ v.build)

/-- dwm_win32.rs `is_win11_22h2` (line 115): `WVER.2 >= 22621`. -/
def is_win11_22h2 (v : WinVer) : Bool :=
  decide (22621 ≤ v.build)

/-- dwm_win32.rs `WVER` (lines 55-67): `get_function!(...).unwrap()` panics when the
entry point cannot be resolved (modelled as `none`); the returned NTSTATUS is
never inspected, and the struct contents are read back unconditionally. -/
def WVER (q : VerQuery) : Option WinVer :=
  if q.resolveOk then some q.written else none

/-- dwm_win32.rs `is_win7` as the process observes it: forcing the lazy `WVER`
propagates the unwrap panic (`none`). -/
def is_win7_probed (q : VerQuery) : Option Bool := (WVER q).map is_win7

/-- dwm_win32.rs `is_win10_1809` as the process observes it through `WVER`. -/
def is_win10_1809_probed (q : VerQuery) : Option Bool := (WVER q).map is_win10_1809

/-- dwm_win32.rs `is_win11` as the process observes it through `WVER`. -/
def is_win11_probed (q : VerQuery) : Option Bool := (WVER q).map is_win11

/-- dwm_win32.rs `is_win11_22h2` as the process observes it through `WVER`. -/
def is_win11_22h2_probed (q : VerQuery) : Option Bool := (WVER q).map is_win11_22h2

/-- dwm.rs `get_windows_ver` (lines 86-102): `None` when the entry point fails to
resolve (`get_function!(..)?`) or when the call returns a negative NTSTATUS. -/
def get_windows_ver (q : VerQuery) : Option WinVer :=
  if q.resolveOk then (if 0 ≤ q.status then some q.written else none) else none

/-- dwm.rs `is_win10_swca` (line 105): `get_windows_ver().unwrap_or_default()`,
then `v.2 >= 17763 && v.2 < 22000`; the default triple is `(0, 0, 0)`. -/
def is_win10_swca (q : VerQuery) : Bool :=
  let v := (get_windows_ver q).getD ⟨0, 0, 0⟩
  decide (17763 ≤ v.build) && decide (v.build < 22000)

/-- dwm.rs `is_win11` (line 111), renamed to avoid the clash with dwm_win32.rs. -/
def is_win11_dwm (q : VerQuery) : Bool :=
  let v := (get_windows_ver q).getD ⟨0, 0, 0⟩
  decide (22000 ≤ v.build)

/-- dwm.rs `is_win11_dwmsbt` (line 117): `v.2 >= 22523`. -/
def is_win11_dwmsbt (q : VerQuery) : Bool :=
  let v := (get_windows_ver q).getD ⟨0, 0, 0⟩
  decide (22523 ≤ v.build)

/-- lib.rs `VibeError` (lines 36-41). -/
inductive VibeError where
  | unsupportedPlatform (msg : String)
  | unknownEffect (effect : String)
  | unknownTheme (theme : String)
  | uninitialized
deriving DecidableEq

/-- dwm_win32.rs `ACCENT_STATE` (lines 71-75). -/
inductive ACCENT_STATE where
  | ACCENT_DISABLED
  | ACCENT_ENABLE_BLURBEHIND
  | ACCENT_ENABLE_ACRYLICBLURBEHIND
deriving DecidableEq

/-- The discriminant values of dwm_win32.rs `ACCENT_STATE` (0, 3, 4). -/
def ACCENT_STATE.code : ACCENT_STATE → Nat
  | .ACCENT_DISABLED => 0
  | .ACCENT_ENABLE_BLURBEHIND => 3
  | .ACCENT_ENABLE_ACRYLICBLURBEHIND => 4

/-- A 4-byte RGBA colour (`[u8; 4]` in the source; each field is a byte value). -/
structure Rgba where
  r : Nat
  g : Nat
  b : Nat
  a : Nat
deriving DecidableEq

/-- dwm_win32.rs `ACCENT_POLICY` (lines 78-83); `GradientColour` is the packed
little-endian u32 `r | g << 8 | b << 16 | a << 24`. -/
structure ACCENT_POLICY where
  AccentState : Nat
  AccentFlags : Nat
  GradientColour : Nat
  AnimationId : Nat
deriving DecidableEq

/-- The native compositor calls a dwm routine can make, in order. -/
inductive NativeCall where
  | extendClientArea
  | resetClientArea
  | setWindowAttribute (attr : Nat) (value : Nat)
  | setCompositionAttribute (policy : ACCENT_POLICY)
deriving DecidableEq

def DWMWA_USE_IMMERSIVE_DARK_MODE : Nat := 20

def DWMWA_MICA_EFFECT : Nat := 1029

def DWMWA_SYSTEMBACKDROP_TYPE : Nat := 38

def DWMSBT_DISABLE : Nat := 1

def DWMSBT_MAINWINDOW : Nat := 2

def DWMSBT_TRANSIENTWINDOW : Nat := 3

/-- dwm_win32.rs `set_accent_policy` (lines 119-144): silently no-ops when
`SetWindowCompositionAttribute` cannot be resolved (`swca = false`); missing
colour defaults to `(0, 0, 0, 0)`; for the acrylic accent state a zero alpha is
forced to 1; the byte packing `r | g << 8 | b << 16 | a << 24` is written with
`+`, which coincides with bitwise or on byte-valued fields. -/
def set_accent_policy (swca : Bool) (accent : ACCENT_STATE) (colour : Option Rgba) :
    List NativeCall :=
  if swca then
    let c := colour.getD ⟨0, 0, 0, 0⟩
    let is_acrylic := accent == ACCENT_STATE.ACCENT_ENABLE_ACRYLICBLURBEHIND
    let c := if is_acrylic && c.a == 0 then { c with a := 1 } else c
    [NativeCall.setCompositionAttribute
      ⟨accent.code, if is_acrylic then 0 else 2,
        c.r + c.g * 2 ^ 8 + c.b * 2 ^ 16 + c.a * 2 ^ 24, 0⟩]
  else []

/-- dwm_win32.rs `force_dark_theme` (lines 166-179). -/
def force_dark_theme (v : WinVer) : Except VibeError (List NativeCall) :=
  if is_win11 v then
    .ok [NativeCall.setWindowAttribute DWMWA_USE_IMMERSIVE_DARK_MODE 1]
  else if is_win10_1809 v then
    .ok [NativeCall.setWindowAttribute (DWMWA_USE_IMMERSIVE_DARK_MODE - 1) 1]
  else
    .error (VibeError.unsupportedPlatform
      "\"force_dark_theme()\" is only available on Windows 10 v1809+ or Windows 11")

/-- dwm_win32.rs `force_light_theme` (lines 181-194). -/
def force_light_theme (v : WinVer) : Except VibeError (List NativeCall) :=
  if is_win11 v then
    .ok [NativeCall.setWindowAttribute DWMWA_USE_IMMERSIVE_DARK_MODE 0]
  else if is_win10_1809 v then
    .ok [NativeCall.setWindowAttribute (DWMWA_USE_IMMERSIVE_DARK_MODE - 1) 0]
  else
    .error (VibeError.unsupportedPlatform
      "\"force_light_theme()\" is only available on Windows 10 v1809+ or Windows 11")

/-- dwm_win32.rs `apply_acrylic` (lines 196-218). -/
def apply_acrylic (v : WinVer) (swca : Bool) (unified acrylic_blurbehind : Bool)
    (colour : Option Rgba) : Except VibeError (List NativeCall) :=
  if !unified && is_win11_22h2 v then
    .ok [NativeCall.extendClientArea,
      NativeCall.setWindowAttribute DWMWA_SYSTEMBACKDROP_TYPE DWMSBT_TRANSIENTWINDOW]
  else if is_win7 v then
    .ok (set_accent_policy swca
      (if acrylic_blurbehind then ACCENT_STATE.ACCENT_ENABLE_ACRYLICBLURBEHIND
        else ACCENT_STATE.ACCENT_ENABLE_BLURBEHIND)
      (some (colour.getD ⟨40, 40, 40, 0⟩)))
  else
    .error (VibeError.unsupportedPlatform
      "\"apply_acrylic()\" is only available on Windows 7+")

/-- dwm_win32.rs `clear_acrylic` (lines 220-234). -/
def clear_acrylic (v : WinVer) (swca : Bool) (unified : Bool) :
    Except VibeError (List NativeCall) :=
  if !unified && is_win11_22h2 v then
    .ok [NativeCall.resetClientArea,
      NativeCall.setWindowAttribute DWMWA_SYSTEMBACKDROP_TYPE DWMSBT_DISABLE]
  else if is_win7 v then
    .ok (set_accent_policy swca ACCENT_STATE.ACCENT_DISABLED none)
  else
    .error (VibeError.unsupportedPlatform
      "\"clear_acrylic()\" is only available on Windows 7+")

/-- dwm_win32.rs `apply_mica` (lines 236-251). -/
def apply_mica (v : WinVer) : Except VibeError (List NativeCall) :=
  if is_win11_22h2 v then
    .ok [NativeCall.extendClientArea,
      NativeCall.setWindowAttribute DWMWA_SYSTEMBACKDROP_TYPE DWMSBT_MAINWINDOW]
  else if is_win11 v then
    .ok [NativeCall.extendClientArea, NativeCall.setWindowAttribute DWMWA_MICA_EFFECT 1]
  else
    .error (VibeError.unsupportedPlatform
      "\"apply_mica()\" is only available on Windows 11")

/-- dwm_win32.rs `clear_mica` (lines 253-268). -/
def clear_mica (v : WinVer) : Except VibeError (List NativeCall) :=
  if is_win11_22h2 v then
    .ok [NativeCall.resetClientArea,
      NativeCall.setWindowAttribute DWMWA_SYSTEMBACKDROP_TYPE DWMSBT_DISABLE]
  else if is_win11 v then
    .ok [NativeCall.resetClientArea, NativeCall.setWindowAttribute DWMWA_MICA_EFFECT 0]
  else
    .error (VibeError.unsupportedPlatform
      "\"clear_mica()\" is only available on Windows 11")

/-- lib.rs `VibeState` (lines 20-32). -/
inductive VibeState where
  | uninitialized
  | initialized
  | acrylic
  | unifiedAcrylic
  | blurbehind
  | mica
deriving DecidableEq

/-- The ambient platform facts the dwm routines consult: the cached version
triple and whether `SetWindowCompositionAttribute` resolves. -/
structure Env where
  ver : WinVer
  swca : Bool
deriving DecidableEq

/-- `let _ = dwm_win32::...` in lib.rs: the result is discarded, so an error is
swallowed; only the native calls the routine did make remain (an erroring dwm
routine makes none before returning). -/
def swallow : Except VibeError (List NativeCall) → List NativeCall
  | .ok t => t
  | .error _ => []

/-- The reversal block lib.rs runs on the recorded state before applying or
clearing (`match *state` at lib.rs:107-125 and 202-220): `Mica` invokes
`clear_mica`, `UnifiedAcrylic` and `Blurbehind` invoke `clear_acrylic(_, true)`,
`Acrylic` invokes `clear_acrylic(_, false)`, the rest do nothing. -/
def clear_prev (env : Env) : VibeState → List NativeCall
  | .mica => swallow (clear_mica env.ver)
  | .unifiedAcrylic => swallow (clear_acrylic env.ver env.swca true)
  | .blurbehind => swallow (clear_acrylic env.ver env.swca true)
  | .acrylic => swallow (clear_acrylic env.ver env.swca false)
  | _ => []

/-- The optional third argument of `applyEffect`: absent, or a colour string
whose CSS parse succeeded (`some rgba`) or failed (`none`) — lib.rs:135-141 maps
a parse failure to `None` before calling the dwm routine. -/
inductive ColourArg where
  | omitted
  | given (parsed : Option Rgba)
deriving DecidableEq

/-- The `Option<[u8; 4]>` lib.rs actually passes down for a colour argument. -/
def ColourArg.resolve : ColourArg → Option Rgba
  | .omitted => none
  | .given p => p

/-- The `match effect.as_str()` dispatch of lib.rs `apply_effect` (lines
129-196): on success the state is set to the resolved variant; on failure the
state is NOT written (it keeps the value `state` had on entry). Returns
(result, new state, native calls made by the apply step). -/
def apply_step (env : Env) (effect : String) (colour : ColourArg) (state : VibeState) :
    Except VibeError Unit × VibeState × List NativeCall :=
  match effect with
  | "acrylic" =>
    match apply_acrylic env.ver env.swca false true colour.resolve with
    | .ok t => (.ok (), .acrylic, t)
    | .error e => (.error e, state, [])
  | "unified-acrylic" =>
    match apply_acrylic env.ver env.swca true true colour.resolve with
    | .ok t => (.ok (), .unifiedAcrylic, t)
    | .error e => (.error e, state, [])
  | "blurbehind" =>
    match apply_acrylic env.ver env.swca true false colour.resolve with
    | .ok t => (.ok (), .blurbehind, t)
    | .error e => (.error e, state, [])
  | "mica" =>
    match apply_mica env.ver with
    | .ok t => (.ok (), .mica, t)
    | .error e => (.error e, state, [])
  | _ => (.error (VibeError.unknownEffect effect), state, [])

/-- lib.rs `apply_effect` (lines 102-197): throw `Uninitialized` if the state is
`Uninitialized`; otherwise best-effort clear the recorded effect, then dispatch
on the effect name. The trace lists the native calls in order (reversal first). -/
def apply_effect (env : Env) (state : VibeState) (effect : String) (colour : ColourArg) :
    Except VibeError Unit × VibeState × List NativeCall :=
  match state with
  | .uninitialized => (.error VibeError.uninitialized, state, [])
  | _ =>
    let r := apply_step env effect colour state
    (r.1, r.2.1, clear_prev env state ++ r.2.2)

/-- lib.rs `clear_effects` (lines 199-226): throw `Uninitialized` if the state is
`Uninitialized`; otherwise run the reversal block and force the state to
`Initialized`. -/
def clear_effects (env : Env) (state : VibeState) :
    Except VibeError Unit × VibeState × List NativeCall :=
  match state with
  | .uninitialized => (.error VibeError.uninitialized, state, [])
  | _ => (.ok (), .initialized, clear_prev env state)

/-- lib.rs `force_theme` (lines 228-245): `let _ =` discards the dwm-level result,
so the host sees success even when the dwm routine failed; only an unknown theme
name is surfaced. -/
def force_theme (env : Env) (theme : String) : Except VibeError Unit × List NativeCall :=
  match theme with
  | "dark" => (.ok (), swallow (force_dark_theme env.ver))
  | "light" => (.ok (), swallow (force_light_theme env.ver))
  | _ => (.error (VibeError.unknownTheme theme), [])

/-- lib.rs `setup` (lines 86-100): idempotent transition to `Initialized`. -/
def setup : VibeState → VibeState
  | .uninitialized => .initialized
  | s => s

end Vibe

namespace Vibe

deriving instance DecidableEq for Except

/-- Decomposition of `apply_effect` outside the `Uninitialized` state: result and
new state come from the effect dispatch, and the trace is the reversal of the
recorded state followed by the dispatch's own calls. -/
theorem apply_effect_eq (env : Env) (s : VibeState) (eff : String) (c : ColourArg)
    (hs : s ≠ VibeState.uninitialized) :
    apply_effect env s eff c =
      ((apply_step env eff c s).1, (apply_step env eff c s).2.1,
        clear_prev env s ++ (apply_step env eff c s).2.2) := by
  cases s <;> first | exact absurd rfl hs | rfl

/-- C1 counterexample: `is_win10_1809` (and dwm.rs `is_win10_swca`) is true at
build 21999 but false at build 22000, and `is_win7` is true at version 6.1 but
false at version 6.2 — so not every capability predicate is monotonic. -/
theorem C1_counterexample :
    is_win10_1809 ⟨10, 0, 21999⟩ = true ∧ is_win10_1809 ⟨10, 0, 22000⟩ = false ∧
    is_win10_swca ⟨true, 0, ⟨10, 0, 21999⟩⟩ = true ∧
    is_win10_swca ⟨true, 0, ⟨10, 0, 22000⟩⟩ = false ∧
    is_win7 ⟨6, 1, 7601⟩ = true ∧ is_win7 ⟨6, 2, 9200⟩ = false := by decide

/-- C1 (amended): `is_win11` and `is_win11_22h2` (and dwm.rs `is_win11` /
`is_win11_dwmsbt` over the observed build) are monotonic in the build number,
but `is_win10_1809` is a bounded window `[17763, 22000)` and `is_win7` is true
at 6.1 yet false at 6.2, so neither of those two is monotonic. -/
theorem C1_amended :
    (∀ v w : WinVer, v.build ≤ w.build → is_win11 v = true → is_win11 w = true) ∧
    (∀ v w : WinVer, v.build ≤ w.build → is_win11_22h2 v = true → is_win11_22h2 w = true) ∧
    (∀ q q' : VerQuery,
      ((get_windows_ver q).getD ⟨0, 0, 0⟩).build ≤ ((get_windows_ver q').getD ⟨0, 0, 0⟩).build →
      is_win11_dwm q = true → is_win11_dwm q' = true) ∧
    (∀ q q' : VerQuery,
      ((get_windows_ver q).getD ⟨0, 0, 0⟩).build ≤ ((get_windows_ver q').getD ⟨0, 0, 0⟩).build →
      is_win11_dwmsbt q = true → is_win11_dwmsbt q' = true) ∧
    ¬ (∀ v w : WinVer, v.build ≤ w.build → is_win10_1809 v = true → is_win10_1809 w = true) ∧
    ¬ (∀ v w : WinVer, v.major ≤ w.major → v.minor ≤ w.minor →
        is_win7 v = true → is_win7 w = true) := by
  refine ⟨?_, ?_, ?_, ?_, ?_, ?_⟩
  · intro v w h hv
    simp only [is_win11, decide_eq_true_eq] at hv ⊢
    omega
  · intro v w h hv
    simp only [is_win11_22h2, decide_eq_true_eq] at hv ⊢
    omega
  · intro q q' h hv
    simp only [is_win11_dwm, decide_eq_true_eq] at hv ⊢
    omega
  · intro q q' h hv
    simp only [is_win11_dwmsbt, decide_eq_true_eq] at hv ⊢
    omega
  · intro h
    exact absurd (h ⟨10, 0, 21999⟩ ⟨10, 0, 22000⟩ (by decide) (by decide)) (by decide)
  · intro h
    exact absurd (h ⟨6, 1, 7601⟩ ⟨6, 2, 9200⟩ (by decide) (by decide) (by decide)) (by decide)

/-- C1 witness: the monotone conjuncts applied at concrete builds. -/
theorem C1_witness :
    is_win11 ⟨10, 0, 22300⟩ = true ∧ is_win11_22h2 ⟨10, 0, 23000⟩ = true :=
  ⟨C1_amended.1 ⟨10, 0, 22000⟩ ⟨10, 0, 22300⟩ (by decide) (by decide),
    C1_amended.2.1 ⟨10, 0, 22621⟩ ⟨10, 0, 23000⟩ (by decide) (by decide)⟩

/-- C2 counterexample: with recorded state `Mica`, `applyEffect(w, "bogus")`
fails with `UnknownEffect` but the recorded state stays `Mica` — it is not reset
to `Initialized`. -/
theorem C2_counterexample :
    (apply_effect ⟨⟨10, 0, 22621⟩, true⟩ VibeState.mica "bogus" ColourArg.omitted).1
      = Except.error (VibeError.unknownEffect "bogus") ∧
    (apply_effect ⟨⟨10, 0, 22621⟩, true⟩ VibeState.mica "bogus" ColourArg.omitted).2.1
      = VibeState.mica := by decide

/-- C2 (amended): when `applyEffect` fails, the recorded state is left unchanged
at its entry value — the state write happens only on success. In particular
`applyEffect(w, "bogus")` after `initialize` fails `UnknownEffect("bogus")` and
leaves the state at `Initialized`; but from an active-effect state the state
stays at the previously active variant even though its native clear ran, rather
than being reset to `Initialized`. -/
theorem C2_amended :
    (∀ (env : Env) (s : VibeState) (eff : String) (c : ColourArg) (e : VibeError),
      (apply_effect env s eff c).1 = Except.error e → (apply_effect env s eff c).2.1 = s) ∧
    (∀ env : Env,
      apply_effect env (setup VibeState.uninitialized) "bogus" ColourArg.omitted
        = (Except.error (VibeError.unknownEffect "bogus"), VibeState.initialized, [])) := by
  constructor
  · intro env s eff c e h
    cases s <;> simp only [apply_effect] at h ⊢
    all_goals first
    | rfl
    | (unfold apply_step at h ⊢
       split at h <;> (try split at h) <;> simp_all)
  · intro env
    rfl

/-- C2 witness: the state-preservation conjunct applied at a concrete failing
call (unknown effect from state `Initialized`). -/
theorem C2_witness :
    (apply_effect ⟨⟨10, 0, 22621⟩, true⟩ VibeState.initialized "bogus" ColourArg.omitted).2.1
      = VibeState.initialized :=
  C2_amended.1 ⟨⟨10, 0, 22621⟩, true⟩ VibeState.initialized "bogus" ColourArg.omitted
    (VibeError.unknownEffect "bogus") (by decide)

/-- C3: calling `applyEffect` while the state is `Uninitialized` fails with the
`Uninitialized` error for every effect name (valid or not), with no native call
made and the state unchanged — the uninitialized check precedes name
validation. -/
theorem C3_uninitialized_first :
    ∀ (env : Env) (eff : String) (c : ColourArg),
      apply_effect env VibeState.uninitialized eff c
        = (Except.error VibeError.uninitialized, VibeState.uninitialized, []) := by
  intro env eff c
  rfl

end Vibe

namespace Vibe

/-- C4 counterexample: on Windows 7 (version 6.1, build 7601) the dwm routine
`force_dark_theme` fails with `UnsupportedPlatform`, but the dispatcher
`force_theme` discards the result (`let _ =`) and reports success to the caller
— the error is not surfaced. -/
theorem C4_counterexample :
    force_dark_theme ⟨6, 1, 7601⟩
      = Except.error (VibeError.unsupportedPlatform
          "\"force_dark_theme()\" is only available on Windows 10 v1809+ or Windows 11") ∧
    (force_theme ⟨⟨6, 1, 7601⟩, true⟩ "dark").1 = Except.ok () := by
  constructor
  · rfl
  · rfl

/-- C4 (amended): for "dark"/"light", if `is_win11` holds the attribute with ID
20 is set (to 1 resp. 0); else if `is_win10_1809` holds the attribute with ID 19
(= DWMWA_USE_IMMERSIVE_DARK_MODE - 1) is set; else the dwm routine returns
`UnsupportedPlatform` but `force_theme` swallows it and reports success to the
caller (no native call is made). Any other theme name fails with
`UnknownTheme(name)`. -/
theorem C4_amended : ∀ env : Env,
    (is_win11 env.ver = true →
      force_theme env "dark" = (Except.ok (), [NativeCall.setWindowAttribute 20 1]) ∧
      force_theme env "light" = (Except.ok (), [NativeCall.setWindowAttribute 20 0])) ∧
    (is_win11 env.ver = false → is_win10_1809 env.ver = true →
      force_theme env "dark" = (Except.ok (), [NativeCall.setWindowAttribute 19 1]) ∧
      force_theme env "light" = (Except.ok (), [NativeCall.setWindowAttribute 19 0])) ∧
    (is_win11 env.ver = false → is_win10_1809 env.ver = false →
      force_dark_theme env.ver = Except.error (VibeError.unsupportedPlatform
        "\"force_dark_theme()\" is only available on Windows 10 v1809+ or Windows 11") ∧
      force_light_theme env.ver = Except.error (VibeError.unsupportedPlatform
        "\"force_light_theme()\" is only available on Windows 10 v1809+ or Windows 11") ∧
      force_theme env "dark" = (Except.ok (), []) ∧
      force_theme env "light" = (Except.ok (), [])) ∧
    (∀ t : String, t ≠ "dark" → t ≠ "light" →
      force_theme env t = (Except.error (VibeError.unknownTheme t), [])) := by
  intro env
  have hd : force_theme env "dark" = (Except.ok (), swallow (force_dark_theme env.ver)) := rfl
  have hl : force_theme env "light" = (Except.ok (), swallow (force_light_theme env.ver)) := rfl
  refine ⟨?_, ?_, ?_, ?_⟩
  · intro h11
    rw [hd, hl]
    simp [force_dark_theme, force_light_theme, h11, swallow, DWMWA_USE_IMMERSIVE_DARK_MODE]
  · intro h11 h1809
    rw [hd, hl]
    simp [force_dark_theme, force_light_theme, h11, h1809, swallow,
      DWMWA_USE_IMMERSIVE_DARK_MODE]
  · intro h11 h1809
    rw [hd, hl]
    simp [force_dark_theme, force_light_theme, h11, h1809, swallow]
  · intro t htd htl
    unfold force_theme
    split
    · exact absurd rfl htd
    · exact absurd rfl htl
    · rfl

/-- C4 witness: the amended dispatch at a Windows 11 build, a Windows 10 1809
build, a Windows 7 build, and an unknown theme name. -/
theorem C4_witness :
    force_theme ⟨⟨10, 0, 22621⟩, true⟩ "dark"
      = (Except.ok (), [NativeCall.setWindowAttribute 20 1]) ∧
    force_theme ⟨⟨10, 0, 17763⟩, true⟩ "dark"
      = (Except.ok (), [NativeCall.setWindowAttribute 19 1]) ∧
    force_theme ⟨⟨6, 1, 7601⟩, true⟩ "dark" = (Except.ok (), []) ∧
    force_theme ⟨⟨10, 0, 22621⟩, true⟩ "sepia"
      = (Except.error (VibeError.unknownTheme "sepia"), []) :=
  ⟨((C4_amended ⟨⟨10, 0, 22621⟩, true⟩).1 (by decide)).1,
    ((C4_amended ⟨⟨10, 0, 17763⟩, true⟩).2.1 (by decide) (by decide)).1,
    ((C4_amended ⟨⟨6, 1, 7601⟩, true⟩).2.2.1 (by decide) (by decide)).2.2.1,
    (C4_amended ⟨⟨10, 0, 22621⟩, true⟩).2.2.2 "sepia" (by decide) (by decide)⟩

/-- C5 counterexample: when the `RtlGetVersion` entry point fails to resolve,
the dwm_win32.rs predicates do not return false — forcing the lazy `WVER`
panics (`none`), for every build the query would otherwise have reported. -/
theorem C5_counterexample :
    is_win7_probed ⟨false, 0, ⟨10, 0, 22621⟩⟩ = none ∧
    is_win10_1809_probed ⟨false, 0, ⟨10, 0, 22621⟩⟩ = none ∧
    is_win11_probed ⟨false, 0, ⟨10, 0, 22621⟩⟩ = none ∧
    is_win11_22h2_probed ⟨false, 0, ⟨10, 0, 22621⟩⟩ = none ∧
    is_win11_probed ⟨false, 0, ⟨10, 0, 22621⟩⟩ ≠ some false := by decide

/-- C5 (amended): dwm.rs's predicates fail closed — they return false whenever
the version query cannot be performed (entry point unresolved, or negative
NTSTATUS); dwm_win32.rs's predicates instead panic (`unwrap` on the lazy `WVER`,
modelled `none`) when the entry point cannot be resolved. -/
theorem C5_amended : ∀ q : VerQuery,
    (q.resolveOk = false ∨ q.status < 0 →
      is_win10_swca q = false ∧ is_win11_dwm q = false ∧ is_win11_dwmsbt q = false) ∧
    (q.resolveOk = false →
      is_win7_probed q = none ∧ is_win10_1809_probed q = none ∧
      is_win11_probed q = none ∧ is_win11_22h2_probed q = none) := by
  intro q
  constructor
  · intro h
    have hv : get_windows_ver q = none := by
      unfold get_windows_ver
      rcases h with h | h
      · simp [h]
      · simp [not_le.mpr h]
    simp [is_win10_swca, is_win11_dwm, is_win11_dwmsbt, hv]
  · intro h
    simp [is_win7_probed, is_win10_1809_probed, is_win11_probed, is_win11_22h2_probed,
      WVER, h]

/-- C5 witness: the amended behaviour at a concrete failed query (entry point
unresolved) and at a concrete negative NTSTATUS. -/
theorem C5_witness :
    is_win10_swca ⟨false, 0, ⟨10, 0, 18000⟩⟩ = false ∧
    is_win11_dwm ⟨true, -1073741823, ⟨10, 0, 22621⟩⟩ = false ∧
    is_win11_probed ⟨false, 0, ⟨10, 0, 22621⟩⟩ = none :=
  ⟨((C5_amended ⟨false, 0, ⟨10, 0, 18000⟩⟩).1 (Or.inl rfl)).1,
    ((C5_amended ⟨true, -1073741823, ⟨10, 0, 22621⟩⟩).1 (Or.inr (by decide))).2.1,
    ((C5_amended ⟨false, 0, ⟨10, 0, 22621⟩⟩).2 rfl).2.2.1⟩

end Vibe

namespace Vibe

/-- The "mica" arm of the effect dispatch, by definitional unfolding. -/
theorem apply_step_mica (env : Env) (c : ColourArg) (s : VibeState) :
    apply_step env "mica" c s
      = (match apply_mica env.ver with
          | .ok t => (Except.ok (), VibeState.mica, t)
          | .error e => (Except.error e, s, [])) := rfl

/-- The "acrylic" arm of the effect dispatch, by definitional unfolding. -/
theorem apply_step_acrylic (env : Env) (c : ColourArg) (s : VibeState) :
    apply_step env "acrylic" c s
      = (match apply_acrylic env.ver env.swca false true c.resolve with
          | .ok t => (Except.ok (), VibeState.acrylic, t)
          | .error e => (Except.error e, s, [])) := rfl

/-- The "unified-acrylic" arm of the effect dispatch, by definitional unfolding. -/
theorem apply_step_unified (env : Env) (c : ColourArg) (s : VibeState) :
    apply_step env "unified-acrylic" c s
      = (match apply_acrylic env.ver env.swca true true c.resolve with
          | .ok t => (Except.ok (), VibeState.unifiedAcrylic, t)
          | .error e => (Except.error e, s, [])) := rfl

/-- The "blurbehind" arm of the effect dispatch, by definitional unfolding. -/
theorem apply_step_blurbehind (env : Env) (c : ColourArg) (s : VibeState) :
    apply_step env "blurbehind" c s
      = (match apply_acrylic env.ver env.swca true false c.resolve with
          | .ok t => (Except.ok (), VibeState.blurbehind, t)
          | .error e => (Except.error e, s, [])) := rfl

/-- C6: `applyEffect("mica")` dispatches most-capable-first: with
`is_win11_22h2` it extends the client area and sets backdrop type 38 to
`DWMSBT_MAINWINDOW` (2); else with `is_win11` it extends the client area and
sets the legacy Mica attribute 1029 to 1; else it fails `UnsupportedPlatform`
(state unchanged, only the reversal calls made). -/
theorem C6_mica_dispatch : ∀ (env : Env) (s : VibeState) (c : ColourArg),
    s ≠ VibeState.uninitialized →
    (is_win11_22h2 env.ver = true →
      apply_effect env s "mica" c
        = (Except.ok (), VibeState.mica, clear_prev env s
            ++ [NativeCall.extendClientArea, NativeCall.setWindowAttribute 38 2])) ∧
    (is_win11_22h2 env.ver = false → is_win11 env.ver = true →
      apply_effect env s "mica" c
        = (Except.ok (), VibeState.mica, clear_prev env s
            ++ [NativeCall.extendClientArea, NativeCall.setWindowAttribute 1029 1])) ∧
    (is_win11 env.ver = false →
      apply_effect env s "mica" c
        = (Except.error (VibeError.unsupportedPlatform
            "\"apply_mica()\" is only available on Windows 11"), s, clear_prev env s)) := by
  intro env s c hs
  have he := apply_effect_eq env s "mica" c hs
  refine ⟨?_, ?_, ?_⟩
  · intro h22
    have hm : apply_mica env.ver
        = .ok [NativeCall.extendClientArea, NativeCall.setWindowAttribute 38 2] := by
      simp [apply_mica, h22, DWMWA_SYSTEMBACKDROP_TYPE, DWMSBT_MAINWINDOW]
    rw [he, apply_step_mica, hm]
  · intro h22 h11
    have hm : apply_mica env.ver
        = .ok [NativeCall.extendClientArea, NativeCall.setWindowAttribute 1029 1] := by
      simp [apply_mica, h22, h11, DWMWA_MICA_EFFECT]
    rw [he, apply_step_mica, hm]
  · intro h11
    have h22 : is_win11_22h2 env.ver = false := by
      simp only [is_win11, is_win11_22h2, decide_eq_false_iff_not] at h11 ⊢
      omega
    have hm : apply_mica env.ver
        = .error (VibeError.unsupportedPlatform
            "\"apply_mica()\" is only available on Windows 11") := by
      simp [apply_mica, h22, h11]
    rw [he, apply_step_mica, hm]
    simp

/-- C6 witness: the three branches of the mica dispatch at concrete builds
(22621, 22000, 17763) from state `Initialized`. -/
theorem C6_witness :
    apply_effect ⟨⟨10, 0, 22621⟩, true⟩ VibeState.initialized "mica" ColourArg.omitted
      = (Except.ok (), VibeState.mica,
          [NativeCall.extendClientArea, NativeCall.setWindowAttribute 38 2]) ∧
    apply_effect ⟨⟨10, 0, 22000⟩, true⟩ VibeState.initialized "mica" ColourArg.omitted
      = (Except.ok (), VibeState.mica,
          [NativeCall.extendClientArea, NativeCall.setWindowAttribute 1029 1]) ∧
    (apply_effect ⟨⟨10, 0, 17763⟩, true⟩ VibeState.initialized "mica" ColourArg.omitted).1
      = Except.error (VibeError.unsupportedPlatform
          "\"apply_mica()\" is only available on Windows 11") := by
  refine ⟨?_, ?_, ?_⟩
  · exact (C6_mica_dispatch ⟨⟨10, 0, 22621⟩, true⟩ VibeState.initialized ColourArg.omitted
      (by decide)).1 (by decide)
  · exact (C6_mica_dispatch ⟨⟨10, 0, 22000⟩, true⟩ VibeState.initialized ColourArg.omitted
      (by decide)).2.1 (by decide) (by decide)
  · rw [(C6_mica_dispatch ⟨⟨10, 0, 17763⟩, true⟩ VibeState.initialized ColourArg.omitted
      (by decide)).2.2 (by decide)]

/-- C7: `clearEffect` from any state other than `Uninitialized` succeeds and
forces the state to `Initialized` (so a second `clearEffect` is a state no-op);
from `Uninitialized` it fails with the `Uninitialized` error, changes nothing
and makes no native call. -/
theorem C7_clear_idempotent : ∀ (env : Env) (s : VibeState),
    (s ≠ VibeState.uninitialized →
      clear_effects env s = (Except.ok (), VibeState.initialized, clear_prev env s) ∧
      (clear_effects env (clear_effects env s).2.1).2.1 = VibeState.initialized) ∧
    (s = VibeState.uninitialized →
      clear_effects env s = (Except.error VibeError.uninitialized, s, [])) := by
  intro env s
  constructor
  · intro hs
    cases s <;> first | exact absurd rfl hs | exact ⟨rfl, rfl⟩
  · intro hs
    subst hs
    rfl

/-- C7 witness: clearing from `Mica` lands on `Initialized` and clearing again
is a state no-op; clearing while `Uninitialized` fails. -/
theorem C7_witness :
    clear_effects ⟨⟨10, 0, 17763⟩, true⟩ VibeState.mica
      = (Except.ok (), VibeState.initialized, []) ∧
    clear_effects ⟨⟨10, 0, 17763⟩, true⟩ VibeState.uninitialized
      = (Except.error VibeError.uninitialized, VibeState.uninitialized, []) := by
  constructor
  · exact ((C7_clear_idempotent ⟨⟨10, 0, 17763⟩, true⟩ VibeState.mica).1 (by decide)).1
  · exact (C7_clear_idempotent ⟨⟨10, 0, 17763⟩, true⟩ VibeState.uninitialized).2 rfl

/-- C8: a parse-failed colour string behaves exactly like an omitted colour; an
absent colour is substituted by the fixed default (40, 40, 40, 0) in
`apply_acrylic`; and in `set_accent_policy` with the acrylic-blur-behind accent
state a zero alpha is forced to 1 while red, green and blue are forwarded
unchanged (a non-zero alpha is forwarded unchanged). -/
theorem C8_colour_handling :
    (∀ (env : Env) (s : VibeState),
      apply_effect env s "acrylic" (ColourArg.given none)
        = apply_effect env s "acrylic" ColourArg.omitted) ∧
    (∀ (v : WinVer) (swca unified ab : Bool),
      apply_acrylic v swca unified ab none
        = apply_acrylic v swca unified ab (some ⟨40, 40, 40, 0⟩)) ∧
    (∀ c : Rgba, c.a = 0 →
      set_accent_policy true ACCENT_STATE.ACCENT_ENABLE_ACRYLICBLURBEHIND (some c)
        = [NativeCall.setCompositionAttribute
            ⟨4, 0, c.r + c.g * 2 ^ 8 + c.b * 2 ^ 16 + 1 * 2 ^ 24, 0⟩]) ∧
    (∀ c : Rgba, c.a ≠ 0 →
      set_accent_policy true ACCENT_STATE.ACCENT_ENABLE_ACRYLICBLURBEHIND (some c)
        = [NativeCall.setCompositionAttribute
            ⟨4, 0, c.r + c.g * 2 ^ 8 + c.b * 2 ^ 16 + c.a * 2 ^ 24, 0⟩]) := by
  refine ⟨?_, ?_, ?_, ?_⟩
  · intro env s
    cases s <;> rfl
  · intro v swca unified ab
    simp [apply_acrylic]
  · intro c hc
    obtain ⟨r, g, b, a⟩ := c
    cases hc
    rfl
  · intro c hc
    obtain ⟨r, g, b, a⟩ := c
    simp only [set_accent_policy, ACCENT_STATE.code, if_true, beq_self_eq_true,
      Bool.true_and, beq_iff_eq, Option.getD_some]
    simp [hc]

/-- C8 witness: alpha forcing at (10, 20, 30, 0), pass-through at (1, 2, 3, 5),
and the default substitution at a concrete platform. -/
theorem C8_witness :
    set_accent_policy true ACCENT_STATE.ACCENT_ENABLE_ACRYLICBLURBEHIND
        (some ⟨10, 20, 30, 0⟩)
      = [NativeCall.setCompositionAttribute
          ⟨4, 0, 10 + 20 * 2 ^ 8 + 30 * 2 ^ 16 + 1 * 2 ^ 24, 0⟩] ∧
    set_accent_policy true ACCENT_STATE.ACCENT_ENABLE_ACRYLICBLURBEHIND
        (some ⟨1, 2, 3, 5⟩)
      = [NativeCall.setCompositionAttribute
          ⟨4, 0, 1 + 2 * 2 ^ 8 + 3 * 2 ^ 16 + 5 * 2 ^ 24, 0⟩] :=
  ⟨C8_colour_handling.2.2.1 ⟨10, 20, 30, 0⟩ rfl,
    C8_colour_handling.2.2.2 ⟨1, 2, 3, 5⟩ (by decide)⟩

end Vibe

namespace Vibe

/-- C9: outside the `Uninitialized` state, the native calls of `applyEffect`
start with the reversal determined by the *recorded* state (the requested
effect plays no role in it): recorded `Mica` invokes `clear_mica`, recorded
`Acrylic` invokes `clear_acrylic(_, false)`, and recorded `UnifiedAcrylic` or
`Blurbehind` invoke `clear_acrylic(_, true)`; the dispatch's own calls follow. -/
theorem C9_clear_matches_recorded :
    ∀ (env : Env) (s : VibeState) (eff : String) (c : ColourArg),
    s ≠ VibeState.uninitialized →
    (apply_effect env s eff c).2.2 = clear_prev env s ++ (apply_step env eff c s).2.2 ∧
    clear_prev env VibeState.mica = swallow (clear_mica env.ver) ∧
    clear_prev env VibeState.acrylic = swallow (clear_acrylic env.ver env.swca false) ∧
    clear_prev env VibeState.unifiedAcrylic = swallow (clear_acrylic env.ver env.swca true) ∧
    clear_prev env VibeState.blurbehind = swallow (clear_acrylic env.ver env.swca true) := by
  intro env s eff c hs
  exact ⟨by rw [apply_effect_eq env s eff c hs], rfl, rfl, rfl, rfl⟩

/-- C9 witness: applying "acrylic" while `Mica` is recorded runs the Mica-clear
sequence first. -/
theorem C9_witness :
    (apply_effect ⟨⟨10, 0, 22621⟩, true⟩ VibeState.mica "acrylic" ColourArg.omitted).2.2
      = clear_prev ⟨⟨10, 0, 22621⟩, true⟩ VibeState.mica
        ++ (apply_step ⟨⟨10, 0, 22621⟩, true⟩ "acrylic" ColourArg.omitted VibeState.mica).2.2 ∧
    clear_prev ⟨⟨10, 0, 22621⟩, true⟩ VibeState.mica = swallow (clear_mica ⟨10, 0, 22621⟩) :=
  ⟨(C9_clear_matches_recorded ⟨⟨10, 0, 22621⟩, true⟩ VibeState.mica "acrylic"
      ColourArg.omitted (by decide)).1,
    (C9_clear_matches_recorded ⟨⟨10, 0, 22621⟩, true⟩ VibeState.mica "acrylic"
      ColourArg.omitted (by decide)).2.1⟩

/-- `apply_acrylic` with the unified flag set never takes the modern
backdrop-type branch: the `!unified` conjunct is false, so only the legacy
composition path or the unsupported-platform error remains. -/
theorem apply_acrylic_unified (v : WinVer) (swca ab : Bool) (colour : Option Rgba) :
    apply_acrylic v swca true ab colour
      = if is_win7 v then
          .ok (set_accent_policy swca
            (if ab then ACCENT_STATE.ACCENT_ENABLE_ACRYLICBLURBEHIND
              else ACCENT_STATE.ACCENT_ENABLE_BLURBEHIND)
            (some (colour.getD ⟨40, 40, 40, 0⟩)))
        else .error (VibeError.unsupportedPlatform
          "\"apply_acrylic()\" is only available on Windows 7+") := by
  simp [apply_acrylic]

/-- `set_accent_policy` only makes a composition call, never the backdrop-type
attribute call. -/
theorem swa_not_mem_accent (swca : Bool) (accent : ACCENT_STATE) (colour : Option Rgba) :
    NativeCall.setWindowAttribute 38 3 ∉ set_accent_policy swca accent colour := by
  unfold set_accent_policy
  split <;> simp

/-- No reversal sequence sets the backdrop type to `DWMSBT_TRANSIENTWINDOW`. -/
theorem swa_not_mem_clear_prev (env : Env) (s : VibeState) :
    NativeCall.setWindowAttribute 38 3 ∉ clear_prev env s := by
  have ha : ∀ u : Bool,
      NativeCall.setWindowAttribute 38 3 ∉ swallow (clear_acrylic env.ver env.swca u) := by
    intro u
    unfold clear_acrylic
    split
    · simp [swallow, DWMSBT_DISABLE, DWMWA_SYSTEMBACKDROP_TYPE]
    · split
      · simpa [swallow] using swa_not_mem_accent env.swca ACCENT_STATE.ACCENT_DISABLED none
      · simp [swallow]
  have hm : NativeCall.setWindowAttribute 38 3 ∉ swallow (clear_mica env.ver) := by
    unfold clear_mica
    split
    · simp [swallow, DWMSBT_DISABLE, DWMWA_SYSTEMBACKDROP_TYPE]
    · split
      · simp [swallow, DWMWA_MICA_EFFECT]
      · simp [swallow]
  cases s <;> simp only [clear_prev] <;>
    first
    | simp
    | exact hm
    | exact ha true
    | exact ha false

/-- C10: "unified-acrylic" and "blurbehind" always reach `apply_acrylic` with
the unified flag true, so they never make the modern backdrop-type call
(attribute 38 set to `DWMSBT_TRANSIENTWINDOW` = 3) on any build: they succeed
through the legacy composition path when `is_win7` holds and otherwise fail
`UnsupportedPlatform`; only plain "acrylic" makes the modern backdrop-type call
(it does whenever `is_win11_22h2` holds). -/
theorem C10_unified_never_modern : ∀ (env : Env) (s : VibeState) (c : ColourArg),
    NativeCall.setWindowAttribute 38 3 ∉ (apply_effect env s "unified-acrylic" c).2.2 ∧
    NativeCall.setWindowAttribute 38 3 ∉ (apply_effect env s "blurbehind" c).2.2 ∧
    (s ≠ VibeState.uninitialized → is_win7 env.ver = true →
      (apply_effect env s "unified-acrylic" c).1 = Except.ok () ∧
      (apply_effect env s "blurbehind" c).1 = Except.ok ()) ∧
    (s ≠ VibeState.uninitialized → is_win7 env.ver = false →
      (apply_effect env s "unified-acrylic" c).1
        = Except.error (VibeError.unsupportedPlatform
            "\"apply_acrylic()\" is only available on Windows 7+") ∧
      (apply_effect env s "blurbehind" c).1
        = Except.error (VibeError.unsupportedPlatform
            "\"apply_acrylic()\" is only available on Windows 7+")) ∧
    (s ≠ VibeState.uninitialized → is_win11_22h2 env.ver = true →
      NativeCall.setWindowAttribute 38 3 ∈ (apply_effect env s "acrylic" c).2.2) := by
  intro env s c
  by_cases hs : s = VibeState.uninitialized
  · subst hs
    refine ⟨by simp [apply_effect], by simp [apply_effect],
      fun h => absurd rfl h, fun h => absurd rfl h, fun h => absurd rfl h⟩
  · have hu : ∀ ab st,
        NativeCall.setWindowAttribute 38 3 ∉
          (match apply_acrylic env.ver env.swca true ab c.resolve with
            | .ok t => (Except.ok (), st, t)
            | .error e => (Except.error e, s, ([] : List NativeCall))).2.2 := by
      intro ab st
      rw [apply_acrylic_unified]
      by_cases h7 : is_win7 env.ver = true
      · rw [if_pos h7]
        exact swa_not_mem_accent env.swca _ _
      · rw [if_neg h7]
        simp
    refine ⟨?_, ?_, ?_, ?_, ?_⟩
    · rw [apply_effect_eq env s "unified-acrylic" c hs]
      intro hmem
      rcases List.mem_append.mp hmem with h | h
      · exact swa_not_mem_clear_prev env s h
      · rw [apply_step_unified] at h
        exact hu true VibeState.unifiedAcrylic h
    · rw [apply_effect_eq env s "blurbehind" c hs]
      intro hmem
      rcases List.mem_append.mp hmem with h | h
      · exact swa_not_mem_clear_prev env s h
      · rw [apply_step_blurbehind] at h
        exact hu false VibeState.blurbehind h
    · intro _ h7
      constructor
      · rw [apply_effect_eq env s "unified-acrylic" c hs, apply_step_unified,
          apply_acrylic_unified]
        simp [h7]
      · rw [apply_effect_eq env s "blurbehind" c hs, apply_step_blurbehind,
          apply_acrylic_unified]
        simp [h7]
    · intro _ h7
      constructor
      · rw [apply_effect_eq env s "unified-acrylic" c hs, apply_step_unified,
          apply_acrylic_unified]
        simp [h7]
      · rw [apply_effect_eq env s "blurbehind" c hs, apply_step_blurbehind,
          apply_acrylic_unified]
        simp [h7]
    · intro _ h22
      have hac : apply_acrylic env.ver env.swca false true c.resolve
          = .ok [NativeCall.extendClientArea, NativeCall.setWindowAttribute 38 3] := by
        simp [apply_acrylic, h22, DWMWA_SYSTEMBACKDROP_TYPE, DWMSBT_TRANSIENTWINDOW]
      rw [apply_effect_eq env s "acrylic" c hs, apply_step_acrylic, hac]
      simp

/-- C10 witness: on a 22H2 build from state `Initialized`, "unified-acrylic"
avoids the modern backdrop call and succeeds via the legacy path, while plain
"acrylic" does make the modern backdrop call; on Windows Vista both unified
effects fail `UnsupportedPlatform`. -/
theorem C10_witness :
    NativeCall.setWindowAttribute 38 3
      ∉ (apply_effect ⟨⟨10, 0, 22621⟩, true⟩ VibeState.initialized "unified-acrylic"
          ColourArg.omitted).2.2 ∧
    (apply_effect ⟨⟨10, 0, 22621⟩, true⟩ VibeState.initialized "unified-acrylic"
        ColourArg.omitted).1 = Except.ok () ∧
    NativeCall.setWindowAttribute 38 3
      ∈ (apply_effect ⟨⟨10, 0, 22621⟩, true⟩ VibeState.initialized "acrylic"
          ColourArg.omitted).2.2 ∧
    (apply_effect ⟨⟨6, 0, 6000⟩, true⟩ VibeState.initialized "blurbehind"
        ColourArg.omitted).1
      = Except.error (VibeError.unsupportedPlatform
          "\"apply_acrylic()\" is only available on Windows 7+") :=
  ⟨(C10_unified_never_modern ⟨⟨10, 0, 22621⟩, true⟩ VibeState.initialized
      ColourArg.omitted).1,
    ((C10_unified_never_modern ⟨⟨10, 0, 22621⟩, true⟩ VibeState.initialized
      ColourArg.omitted).2.2.1 (by decide) (by decide)).1,
    (C10_unified_never_modern ⟨⟨10, 0, 22621⟩, true⟩ VibeState.initialized
      ColourArg.omitted).2.2.2.2 (by decide) (by decide),
    ((C10_unified_never_modern ⟨⟨6, 0, 6000⟩, true⟩ VibeState.initialized
      ColourArg.omitted).2.2.2.1 (by decide) (by decide)).2⟩

end Vibe
